import Mathlib

/-!
Verification development for the `api-vault` python client
(`src/py-client/vault_client.py`).  The client's pure computations
(Keccak-256 provider ids, UTF-8 decoding of secrets, the hard-coded ABI,
CLI argument dispatch and per-command control flow) are embedded as
executable Lean definitions, and the specification's claims about them are
settled as theorems.
-/

set_option maxRecDepth 100000
set_option linter.unusedVariables false

namespace VaultClient

/-! ## Keccak-256 (the hash behind `Web3.keccak(text=...)`)

Lanes are 64-bit words represented as `Nat` reduced mod `2^64`; the 5×5
state is a flat 25-element list indexed by `x + 5*y`. -/

def mask64 : Nat := 2 ^ 64 - 1

def rotl64 (n r : Nat) : Nat :=
  (((n <<< r) ||| (n >>> (64 - r))) : Nat) % 2 ^ 64

/-- The 24 keccak-f round constants, in round order. -/
def keccakRC : List Nat :=
  [0x0000000000000001, 0x0000000000008082, 0x800000000000808A] ++
    [0x8000000080008000, 0x000000000000808B, 0x0000000080000001] ++
    [0x8000000080008081, 0x8000000000008009, 0x000000000000008A] ++
    [0x0000000000000088, 0x0000000080008009, 0x000000008000000A] ++
    [0x000000008000808B, 0x800000000000008B, 0x8000000000008089] ++
    [0x8000000000008003, 0x8000000000008002, 0x8000000000000080] ++
    [0x000000000000800A, 0x800000008000000A, 0x8000000080008081] ++
    [0x8000000000008080, 0x0000000080000001, 0x8000000080008008]

/-- Rho rotation offsets, indexed by `x + 5*y`, one sublist per row `y`. -/
def keccakRot : List Nat :=
  [0, 1, 62, 28, 27] ++
    [36, 44, 6, 55, 20] ++
    [3, 10, 43, 25, 39] ++
    [41, 45, 15, 21, 8] ++
    [18, 2, 61, 56, 14]

def lane (A : List Nat) (x y : Nat) : Nat := A.getD (x + 5 * y) 0

def keccakTheta (A : List Nat) : List Nat :=
  let C := (List.range 5).map fun x =>
    lane A x 0 ^^^ lane A x 1 ^^^ lane A x 2 ^^^ lane A x 3 ^^^ lane A x 4
  let D := (List.range 5).map fun x =>
    C.getD ((x + 4) % 5) 0 ^^^ rotl64 (C.getD ((x + 1) % 5) 0) 1
  (List.range 25).map fun i => A.getD i 0 ^^^ D.getD (i % 5) 0

def keccakRhoPi (A : List Nat) : List Nat :=
  (List.range 25).foldl
    (fun B i =>
      let x := i % 5
      let y := i / 5
      B.set (y + 5 * ((2 * x + 3 * y) % 5)) (rotl64 (A.getD i 0) (keccakRot.getD i 0)))
    (List.replicate 25 0)

def keccakChi (B : List Nat) : List Nat :=
  (List.range 25).map fun i =>
    let x := i % 5
    let y := i / 5
    lane B x y ^^^ ((lane B ((x + 1) % 5) y ^^^ mask64) &&& lane B ((x + 2) % 5) y)

def keccakRound (A : List Nat) (r : Nat) : List Nat :=
  let A := keccakChi (keccakRhoPi (keccakTheta A))
  A.set 0 (A.getD 0 0 ^^^ keccakRC.getD r 0)

def keccakF (A : List Nat) : List Nat := (List.range 24).foldl keccakRound A

/-- Original keccak padding: append `0x01`, zero fill, set the top bit of the
last byte of the 136-byte rate block (`0x81` when a single byte is added). -/
def keccakPad (bs : List Nat) : List Nat :=
  let padLen := 136 - bs.length % 136
  if padLen = 1 then bs ++ [0x81]
  else bs ++ [0x01] ++ List.replicate (padLen - 2) 0 ++ [0x80]

/-- Little-endian bytes to a 64-bit lane. -/
def bytesToLane (bs : List Nat) : Nat := bs.foldr (fun b acc => b + 256 * acc) 0

def laneToBytes (n : Nat) : List Nat := (List.range 8).map fun i => n >>> (8 * i) % 256

def xorBlock (S block : List Nat) : List Nat :=
  (List.range 25).map fun j =>
    S.getD j 0 ^^^ (if j < 17 then bytesToLane ((block.drop (8 * j)).take 8) else 0)

/-- Absorb `k` rate-sized blocks of `bs` into the state. -/
def keccakAbsorb : Nat → List Nat → List Nat → List Nat
  | 0, S, _ => S
  | k + 1, S, bs => keccakAbsorb k (keccakF (xorBlock S (bs.take 136))) (bs.drop 136)

/-- Keccak-256 of a byte sequence (bytes are `Nat`s below 256). -/
def keccak256 (msg : List Nat) : List Nat :=
  let padded := keccakPad msg
  let S := keccakAbsorb (padded.length / 136) (List.replicate 25 0) padded
  ((List.range 4).map fun j => laneToBytes (S.getD j 0)).flatten

/-- Known-answer check pinning the implementation: keccak-256 of the empty
input is the standard published digest. -/
theorem keccak256_empty :
    keccak256 [] =
      [0xc5, 0xd2, 0x46, 0x01, 0x86, 0xf7, 0x23, 0x3c,
       0x92, 0x7e, 0x7d, 0xb2, 0xdc, 0xc7, 0x03, 0xc0,
       0xe5, 0x00, 0xb6, 0x53, 0xca, 0x82, 0x27, 0x3b,
       0x7b, 0xfa, 0xd8, 0x04, 0x5d, 0x85, 0xa4, 0x70] := by
  decide

/-- Second known-answer check, exercising nonzero message bytes: keccak-256
of the ASCII bytes of "abc" matches the published digest. -/
theorem keccak256_abc :
    keccak256 [0x61, 0x62, 0x63] =
      [0x4e, 0x03, 0x65, 0x7a, 0xea, 0x45, 0xa9, 0x4f,
       0xc7, 0xd4, 0x7b, 0xa8, 0x26, 0xc8, 0xd6, 0x67,
       0xc0, 0xd1, 0xe6, 0xe3, 0x3a, 0x64, 0xa0, 0x36,
       0xec, 0x44, 0xf5, 0x8f, 0xa1, 0x2d, 0x6c, 0x45] := by
  decide

/-! ## UTF-8 encoding and decoding

`secret_bytes.decode('utf-8')` in the client is Python's strict UTF-8
decoder: it rejects stray or missing continuation bytes, overlong forms,
surrogate code points and values above `0x10FFFF`.  The encoder is the
standard UTF-8 encoding of unicode scalar values. -/

def utf8EncodeScalar (n : Nat) : List Nat :=
  if n < 0x80 then [n]
  else if n < 0x800 then [0xC0 + n / 64, 0x80 + n % 64]
  else if n < 0x10000 then [0xE0 + n / 4096, 0x80 + n / 64 % 64, 0x80 + n % 64]
  else [0xF0 + n / 262144, 0x80 + n / 4096 % 64, 0x80 + n / 64 % 64, 0x80 + n % 64]

def utf8EncodeScalars (ns : List Nat) : List Nat := (ns.map utf8EncodeScalar).flatten

/-- One-byte-at-a-time strict UTF-8 decoder.  The first argument is the
mid-sequence state: `none` at a sequence boundary, and `some (need, acc, lo)`
after a leading byte, where `need` continuation bytes are still expected,
`acc` is the value accumulated so far and `lo` is the smallest scalar value
a sequence of this length may encode (the overlong check).  A completed
scalar is further required to lie below `0x110000` and outside the surrogate
range, exactly as in Python's strict `utf-8` codec. -/
def utf8DecodeGo : Option (Nat × Nat × Nat) → List Nat → Option (List Nat)
  | none, [] => some []
  | some _, [] => none
  | none, b :: bs =>
    if b < 0x80 then (utf8DecodeGo none bs).map (b :: ·)
    else if b < 0xC0 then none
    else if b < 0xE0 then utf8DecodeGo (some (1, b - 0xC0, 0x80)) bs
    else if b < 0xF0 then utf8DecodeGo (some (2, b - 0xE0, 0x800)) bs
    else if b < 0xF5 then utf8DecodeGo (some (3, b - 0xF0, 0x10000)) bs
    else none
  | some (need, acc, lo), b :: bs =>
    if 0x80 ≤ b ∧ b < 0xC0 then
      if need ≤ 1 then
        let n := acc * 64 + (b - 0x80)
        if lo ≤ n ∧ n < 0x110000 ∧ (n < 0xD800 ∨ 0xE000 ≤ n) then
          (utf8DecodeGo none bs).map (n :: ·)
        else none
      else utf8DecodeGo (some (need - 1, acc * 64 + (b - 0x80), lo)) bs
    else none

/-- Strict UTF-8 decoder on byte sequences, returning the decoded unicode
scalar values, or `none` exactly when Python's `bytes.decode('utf-8')`
raises `UnicodeDecodeError`. -/
def utf8DecodeScalars (bs : List Nat) : Option (List Nat) := utf8DecodeGo none bs

/-- UTF-8 encoding of a Python string (a sequence of unicode scalar values). -/
def pyUtf8Encode (s : String) : List Nat := utf8EncodeScalars (s.data.map Char.toNat)

/-- Python's `bytes.decode('utf-8')` at string level. -/
def pyUtf8Decode (bs : List Nat) : Option String :=
  (utf8DecodeScalars bs).map fun ns => String.mk (ns.map Char.ofNat)

theorem utf8Decode_encode_cons (n : Nat) (h : n.isValidChar) (rest : List Nat) :
    utf8DecodeScalars (utf8EncodeScalar n ++ rest) =
      (utf8DecodeScalars rest).map (n :: ·) := by
  simp only [utf8DecodeScalars]
  rcases Nat.lt_or_ge n 0x80 with h1 | h1
  · simp only [utf8EncodeScalar, if_pos h1, List.cons_append, List.nil_append]
    simp only [utf8DecodeGo.eq_3, if_pos h1]
  · rcases Nat.lt_or_ge n 0x800 with h2 | h2
    · have e6 : (0xC0 + n / 64 - 0xC0) * 64 + (0x80 + n % 64 - 0x80) = n := by omega
      simp only [utf8EncodeScalar, if_neg (by omega : ¬ n < 0x80), if_pos h2,
        List.cons_append, List.nil_append]
      simp only [utf8DecodeGo.eq_3, if_neg (by omega : ¬ 0xC0 + n / 64 < 0x80),
        if_neg (by omega : ¬ 0xC0 + n / 64 < 0xC0),
        if_pos (by omega : 0xC0 + n / 64 < 0xE0)]
      simp only [utf8DecodeGo.eq_4,
        if_pos (by omega : 0x80 ≤ 0x80 + n % 64 ∧ 0x80 + n % 64 < 0xC0),
        if_pos (by omega : (1:Nat) ≤ 1)]
      simp only [e6]
      rw [if_pos ⟨h1, by omega, Or.inl (by omega)⟩]
    · rcases Nat.lt_or_ge n 0x10000 with h3 | h3
      · have em : (0xE0 + n / 4096 - 0xE0) * 64 + (0x80 + n / 64 % 64 - 0x80) = n / 64 := by
          omega
        have e6 : n / 64 * 64 + (0x80 + n % 64 - 0x80) = n := by omega
        have hs : n < 0xD800 ∨ 0xE000 ≤ n := by
          rcases h with hlo | ⟨ha, _⟩
          · exact Or.inl hlo
          · exact Or.inr (by omega)
        simp only [utf8EncodeScalar, if_neg (by omega : ¬ n < 0x80),
          if_neg (by omega : ¬ n < 0x800), if_pos h3, List.cons_append, List.nil_append]
        simp only [utf8DecodeGo.eq_3, if_neg (by omega : ¬ 0xE0 + n / 4096 < 0x80),
          if_neg (by omega : ¬ 0xE0 + n / 4096 < 0xC0),
          if_neg (by omega : ¬ 0xE0 + n / 4096 < 0xE0),
          if_pos (by omega : 0xE0 + n / 4096 < 0xF0)]
        simp only [utf8DecodeGo.eq_4,
          if_pos (by omega : 0x80 ≤ 0x80 + n / 64 % 64 ∧ 0x80 + n / 64 % 64 < 0xC0),
          if_neg (by omega : ¬ (2:Nat) ≤ 1)]
        simp only [em]
        simp only [utf8DecodeGo.eq_4,
          if_pos (by omega : 0x80 ≤ 0x80 + n % 64 ∧ 0x80 + n % 64 < 0xC0),
          if_pos (by omega : (2:Nat) - 1 ≤ 1)]
        simp only [e6]
        rw [if_pos ⟨h2, by omega, hs⟩]
      · have h4 : n < 0x110000 := by
          rcases h with hlo | ⟨_, hhi⟩
          · omega
          · exact hhi
        have em1 : (0xF0 + n / 262144 - 0xF0) * 64 + (0x80 + n / 4096 % 64 - 0x80) =
            n / 4096 := by omega
        have em2 : n / 4096 * 64 + (0x80 + n / 64 % 64 - 0x80) = n / 64 := by omega
        have e6 : n / 64 * 64 + (0x80 + n % 64 - 0x80) = n := by omega
        simp only [utf8EncodeScalar, if_neg (by omega : ¬ n < 0x80),
          if_neg (by omega : ¬ n < 0x800), if_neg (by omega : ¬ n < 0x10000),
          List.cons_append, List.nil_append]
        simp only [utf8DecodeGo.eq_3, if_neg (by omega : ¬ 0xF0 + n / 262144 < 0x80),
          if_neg (by omega : ¬ 0xF0 + n / 262144 < 0xC0),
          if_neg (by omega : ¬ 0xF0 + n / 262144 < 0xE0),
          if_neg (by omega : ¬ 0xF0 + n / 262144 < 0xF0),
          if_pos (by omega : 0xF0 + n / 262144 < 0xF5)]
        simp only [utf8DecodeGo.eq_4,
          if_pos (by omega : 0x80 ≤ 0x80 + n / 4096 % 64 ∧ 0x80 + n / 4096 % 64 < 0xC0),
          if_neg (by omega : ¬ (3:Nat) ≤ 1)]
        simp only [em1]
        simp only [utf8DecodeGo.eq_4,
          if_pos (by omega : 0x80 ≤ 0x80 + n / 64 % 64 ∧ 0x80 + n / 64 % 64 < 0xC0),
          if_neg (by omega : ¬ (3:Nat) - 1 ≤ 1)]
        simp only [em2]
        simp only [utf8DecodeGo.eq_4,
          if_pos (by omega : 0x80 ≤ 0x80 + n % 64 ∧ 0x80 + n % 64 < 0xC0),
          if_pos (by omega : (3:Nat) - 1 - 1 ≤ 1)]
        simp only [e6]
        rw [if_pos ⟨h3, h4, Or.inr (by omega)⟩]

theorem utf8DecodeScalars_encodeScalars (ns : List Nat) (h : ∀ n ∈ ns, n.isValidChar) :
    utf8DecodeScalars (utf8EncodeScalars ns) = some ns := by
  induction ns with
  | nil => rfl
  | cons n ns ih =>
    have : utf8EncodeScalars (n :: ns) = utf8EncodeScalar n ++ utf8EncodeScalars ns := by
      simp [utf8EncodeScalars]
    rw [this, utf8Decode_encode_cons n (h n (by simp)) _,
      ih (fun m hm => h m (by simp [hm]))]
    rfl

/-- UTF-8 round trip at the string level: decoding the encoding of any
string yields exactly that string. -/
theorem pyUtf8Decode_pyUtf8Encode (s : String) : pyUtf8Decode (pyUtf8Encode s) = some s := by
  have hvalid : ∀ m ∈ s.data.map Char.toNat, m.isValidChar := by
    intro m hm
    simp only [List.mem_map] at hm
    obtain ⟨c, _, rfl⟩ := hm
    exact c.valid
  have hmap : (s.data.map Char.toNat).map Char.ofNat = s.data := by
    induction s.data with
    | nil => rfl
    | cons c cs ih => simp [ih]
  show (utf8DecodeScalars (utf8EncodeScalars (s.data.map Char.toNat))).map
      (fun ns => String.mk (ns.map Char.ofNat)) = some s
  rw [utf8DecodeScalars_encodeScalars _ hvalid]
  show some (String.mk ((s.data.map Char.toNat).map Char.ofNat)) = some s
  rw [hmap]

/-! ## Data model: contract ABI and provider table (`vault_client.py` lines 27-68) -/

structure AbiParam where
  name : String
  type : String
deriving DecidableEq, Repr

structure AbiFunction where
  inputs : List AbiParam
  name : String
  outputs : List AbiParam
  stateMutability : String
  type : String
deriving DecidableEq, Repr

def getSecretAbi : AbiFunction :=
  { inputs := [{ name := "owner", type := "address" },
               { name := "providerId", type := "bytes32" }],
    name := "getSecret",
    outputs := [{ name := "", type := "bytes" }],
    stateMutability := "view",
    type := "function" }

def getSecretInfoAbi : AbiFunction :=
  { inputs := [{ name := "owner", type := "address" },
               { name := "providerId", type := "bytes32" }],
    name := "getSecretInfo",
    outputs := [{ name := "version", type := "uint64" },
                { name := "exists", type := "bool" },
                { name := "isAllowed", type := "bool" }],
    stateMutability := "view",
    type := "function" }

def whoAmIAbi : AbiFunction :=
  { inputs := [],
    name := "whoAmI",
    outputs := [{ name := "", type := "address" }],
    stateMutability := "view",
    type := "function" }

/-- The hard-coded minimal ABI (`ABI` in the source, three entries). -/
def ABI : List AbiFunction := [getSecretAbi, getSecretInfoAbi, whoAmIAbi]

/-- The extra `whoAmI` declaration appended inside the `whoami` command
(source lines 138-144); it is textually identical to `whoAmIAbi`. -/
def whoAmIExtraAbi : AbiFunction :=
  { inputs := [],
    name := "whoAmI",
    outputs := [{ name := "", type := "address" }],
    stateMutability := "view",
    type := "function" }

/-- `abi_with_whoami = ABI + [ ... ]` as built inside the `whoami` command. -/
def abi_with_whoami : List AbiFunction := ABI ++ [whoAmIExtraAbi]

/-- The provider table: each name maps to `Web3.keccak(text=name)`, the
keccak-256 digest of the UTF-8 bytes of the name. -/
def PROVIDERS : List (String × List Nat) :=
  [("ANTHROPIC_API_KEY", keccak256 (pyUtf8Encode "ANTHROPIC_API_KEY")),
   ("OPENAI_API_KEY", keccak256 (pyUtf8Encode "OPENAI_API_KEY")),
   ("XAI_API_KEY", keccak256 (pyUtf8Encode "XAI_API_KEY")),
   ("OPENROUTER_API_KEY", keccak256 (pyUtf8Encode "OPENROUTER_API_KEY")),
   ("ZAI_API_KEY", keccak256 (pyUtf8Encode "ZAI_API_KEY")),
   ("GOOGLE_API_KEY", keccak256 (pyUtf8Encode "GOOGLE_API_KEY"))]

/-- `PROVIDERS.get(provider)` - dictionary lookup. -/
def PROVIDERS_get (s : String) : Option (List Nat) := PROVIDERS.lookup s

/-- `PROVIDERS.keys()` in insertion order. -/
def PROVIDERS_keys : List String := PROVIDERS.map Prod.fst

/-! ## CLI command model (`vault_client.py` lines 71-180)

The external collaborators are parameters: `derive` stands for
`eth_account`'s address derivation, and each command takes the outcome of
its single contract call (`Except.error` when the library raises) as an
oracle argument.  A `CmdRun` records the lines printed to stdout, the
exception escaping the command (only possible outside the `try` blocks),
and whether a contract object was built / a network call issued. -/

structure Env where
  privateKey : Option String
deriving DecidableEq, Repr

structure Account where
  address : String
deriving DecidableEq, Repr

inductive Fault where
  | configError (msg : String)
deriving DecidableEq, Repr

inductive CallError where
  | networkError (msg : String)
  | rpcError (msg : String)
  | contractRevertError (msg : String)
deriving DecidableEq, Repr

def CallError.message : CallError → String
  | CallError.networkError m => m
  | CallError.rpcError m => m
  | CallError.contractRevertError m => m

structure CmdRun where
  output : List String
  raised : Option Fault
  contractBuilt : Bool
  networkCalled : Bool
deriving DecidableEq, Repr

/-- `get_client`: reads `PRIVATE_KEY` (Python falsiness: absent or empty
both fail), derives the account, builds and wraps the Web3 client.  The
`ValueError` of the source is the spec's `ConfigError`. -/
def get_client (derive : String → Account) (env : Env) : Except Fault Account :=
  match env.privateKey with
  | none => Except.error (Fault.configError "PRIVATE_KEY environment variable required")
  | some k =>
    if k = "" then Except.error (Fault.configError "PRIVATE_KEY environment variable required")
    else Except.ok (derive k)

/-- The unknown-provider diagnostic, listing the valid provider names. -/
def validProvidersLine : String :=
  "Unknown provider. Valid: " ++ String.intercalate ", " PROVIDERS_keys

/-- Placeholder for `str(UnicodeDecodeError)` in the printed diagnostic. -/
def decodeErrorMessage : String := "UnicodeDecodeError: invalid utf-8"

def zeroAddress : String := "0x0000000000000000000000000000000000000000"

def pyBool (b : Bool) : String := if b then "True" else "False"

/-- The `get-secret` command body. -/
def get_secret (derive : String → Account) (env : Env)
    (call : Except CallError (List Nat))
    (contract_addr owner provider : String) : CmdRun :=
  match get_client derive env with
  | Except.error f =>
    { output := [], raised := some f, contractBuilt := false, networkCalled := false }
  | Except.ok account =>
    let hdr := ["Caller: " ++ account.address, "Owner: " ++ owner, "Provider: " ++ provider]
    match PROVIDERS_get provider with
    | none =>
      { output := hdr ++ [validProvidersLine], raised := none,
        contractBuilt := false, networkCalled := false }
    | some provider_id =>
      if provider_id.isEmpty then
        { output := hdr ++ [validProvidersLine], raised := none,
          contractBuilt := false, networkCalled := false }
      else
        match call with
        | Except.error e =>
          { output := hdr ++ ["✗ Error: " ++ e.message], raised := none,
            contractBuilt := true, networkCalled := true }
        | Except.ok secret_bytes =>
          match pyUtf8Decode secret_bytes with
          | none =>
            { output := hdr ++ ["✗ Error: " ++ decodeErrorMessage], raised := none,
              contractBuilt := true, networkCalled := true }
          | some secret =>
            { output := hdr ++ ["✓ Secret: " ++ secret], raised := none,
              contractBuilt := true, networkCalled := true }

/-- The `get-info` command body. -/
def get_info (derive : String → Account) (env : Env)
    (call : Except CallError (Nat × Bool × Bool))
    (contract_addr owner provider : String) : CmdRun :=
  match get_client derive env with
  | Except.error f =>
    { output := [], raised := some f, contractBuilt := false, networkCalled := false }
  | Except.ok account =>
    let hdr := ["Caller: " ++ account.address]
    match PROVIDERS_get provider with
    | none =>
      { output := hdr ++ [validProvidersLine], raised := none,
        contractBuilt := false, networkCalled := false }
    | some provider_id =>
      if provider_id.isEmpty then
        { output := hdr ++ [validProvidersLine], raised := none,
          contractBuilt := false, networkCalled := false }
      else
        match call with
        | Except.error e =>
          { output := hdr ++ ["✗ Error: " ++ e.message], raised := none,
            contractBuilt := true, networkCalled := true }
        | Except.ok result =>
          { output := hdr ++ ["Version: " ++ toString result.1,
                              "Exists: " ++ pyBool result.2.1,
                              "IsAllowed: " ++ pyBool result.2.2 ++
                                "  <-- Should be True with signed query"],
            raised := none, contractBuilt := true, networkCalled := true }

/-- The `whoami` command body; binds `abi_with_whoami` to the contract. -/
def whoami (derive : String → Account) (env : Env)
    (call : Except CallError String) (contract_addr : String) : CmdRun :=
  match get_client derive env with
  | Except.error f =>
    { output := [], raised := some f, contractBuilt := false, networkCalled := false }
  | Except.ok account =>
    let hdr := ["Expected: " ++ account.address]
    match call with
    | Except.error e =>
      { output := hdr ++ ["✗ Error: " ++ e.message], raised := none,
        contractBuilt := true, networkCalled := true }
    | Except.ok result =>
      let lines := hdr ++ ["Returned: " ++ result]
      if result = account.address then
        { output := lines ++ ["✓ Signed queries working!"], raised := none,
          contractBuilt := true, networkCalled := true }
      else if result = zeroAddress then
        { output := lines ++ ["✗ Unsigned (msg.sender = address(0))"], raised := none,
          contractBuilt := true, networkCalled := true }
      else
        { output := lines ++ ["? Unexpected result"], raised := none,
          contractBuilt := true, networkCalled := true }

/-- Modelled from the spec: the APIKeyVault contract itself and the Sapphire
signed-query wrapper are outside this repository.  Per the spec, `whoAmI()`
returns the contract's view of `msg.sender`: the signer's own address for a
correctly wrapped client, and the zero address for an unwrapped client. -/
def mockWhoAmICall (wrapped : Bool) (signerAddr : String) : Except CallError String :=
  Except.ok (if wrapped then signerAddr else zeroAddress)

/-- The module docstring printed as usage text. -/
def usageText : String :=
  "\nAPIKeyVault Python Client with Signed Queries\n\nUsage:\n    python vault_client.py get-secret <contract> <owner> <provider>\n    python vault_client.py get-info <contract> <owner> <provider>\n    python vault_client.py whoami <contract>\n\nEnvironment:\n    PRIVATE_KEY - Wallet private key (with 0x prefix)\n"

inductive Dispatch where
  | runGetSecret (c o p : String)
  | runGetInfo (c o p : String)
  | runWhoami (c : String)
  | usage
deriving DecidableEq, Repr

/-- Argument dispatch of `main()`: `sys.argv` includes the program name at
index 0. -/
def dispatch (argv : List String) : Dispatch :=
  if argv.length < 2 then Dispatch.usage
  else
    let cmd := argv.getD 1 ""
    if cmd = "get-secret" ∧ argv.length = 5 then
      Dispatch.runGetSecret (argv.getD 2 "") (argv.getD 3 "") (argv.getD 4 "")
    else if cmd = "get-info" ∧ argv.length = 5 then
      Dispatch.runGetInfo (argv.getD 2 "") (argv.getD 3 "") (argv.getD 4 "")
    else if cmd = "whoami" ∧ argv.length = 3 then
      Dispatch.runWhoami (argv.getD 2 "")
    else Dispatch.usage

/-- `main()`: dispatch, run the selected command, or print the usage text.
`main` installs no exception handler, so a command's escaping fault is the
process's escaping fault. -/
def runMain (derive : String → Account) (env : Env)
    (callGS : Except CallError (List Nat))
    (callGI : Except CallError (Nat × Bool × Bool))
    (callWho : Except CallError String) (argv : List String) : CmdRun :=
  match dispatch argv with
  | Dispatch.runGetSecret c o p => get_secret derive env callGS c o p
  | Dispatch.runGetInfo c o p => get_info derive env callGI c o p
  | Dispatch.runWhoami c => whoami derive env callWho c
  | Dispatch.usage =>
    { output := [usageText], raised := none, contractBuilt := false, networkCalled := false }

/-! ## Claim theorems -/

/-- C4: for each of the six supported provider names, the ProviderId stored
in the compiled-in table equals the keccak-256 digest of the UTF-8 bytes of
the name, and that digest is 32 bytes long; recomputing the hash of the name
therefore reproduces the stored value bit-identically. -/
theorem providers_table_is_keccak_of_name :
    ∀ name ∈ PROVIDERS_keys,
      PROVIDERS_get name = some (keccak256 (pyUtf8Encode name)) ∧
      (PROVIDERS_get name).map List.length = some 32 := by
  intro name hname
  fin_cases hname <;> exact ⟨rfl, by decide⟩

/-- Witness for C4 at the concrete name OPENAI_API_KEY. -/
theorem providers_table_is_keccak_of_name_witness :
    PROVIDERS_get "OPENAI_API_KEY" = some (keccak256 (pyUtf8Encode "OPENAI_API_KEY")) ∧
    (PROVIDERS_get "OPENAI_API_KEY").map List.length = some 32 :=
  providers_table_is_keccak_of_name "OPENAI_API_KEY" (by decide)

/-- C10: the ABI bound by the whoami command is the base three-entry ABI
with a second, identical whoAmI declaration appended: four entries in all,
of which the entries at indices 2 and 3 are both the whoAmI declaration. -/
theorem whoami_abi_has_duplicate_entry :
    abi_with_whoami = ABI ++ [whoAmIExtraAbi] ∧
    whoAmIExtraAbi = whoAmIAbi ∧
    ABI.length = 3 ∧
    whoAmIAbi ∈ ABI ∧
    abi_with_whoami.length = 4 ∧
    abi_with_whoami.getD 2 getSecretAbi = whoAmIAbi ∧
    abi_with_whoami.getD 3 getSecretAbi = whoAmIAbi := by
  refine ⟨rfl, rfl, rfl, ?_, rfl, rfl, rfl⟩
  simp [ABI]

/-- C2: a get-secret or get-info invocation whose provider is not in the
table prints the header lines followed by the list of valid provider names,
and returns without building a contract object or issuing a network call. -/
theorem unknown_provider_aborts (derive : String → Account) (env : Env) (acct : Account)
    (callGS : Except CallError (List Nat)) (callGI : Except CallError (Nat × Bool × Bool))
    (c o p : String)
    (hok : get_client derive env = Except.ok acct)
    (hp : PROVIDERS_get p = none) :
    get_secret derive env callGS c o p =
      { output := ["Caller: " ++ acct.address, "Owner: " ++ o, "Provider: " ++ p,
                   validProvidersLine],
        raised := none, contractBuilt := false, networkCalled := false } ∧
    get_info derive env callGI c o p =
      { output := ["Caller: " ++ acct.address, validProvidersLine],
        raised := none, contractBuilt := false, networkCalled := false } ∧
    validProvidersLine =
      "Unknown provider. Valid: ANTHROPIC_API_KEY, OPENAI_API_KEY, XAI_API_KEY, OPENROUTER_API_KEY, ZAI_API_KEY, GOOGLE_API_KEY" := by
  refine ⟨?_, ?_, by decide⟩ <;> simp [get_secret, get_info, hok, hp]

/-- Witness for C2 at a concrete unknown provider name. -/
theorem unknown_provider_aborts_witness :
    get_secret (fun _ => { address := "0xCAFE" }) { privateKey := some "0xabc" }
        (Except.ok []) "0xC0" "0x01" "SOME_OTHER_KEY" =
      { output := ["Caller: " ++ "0xCAFE", "Owner: " ++ "0x01", "Provider: " ++ "SOME_OTHER_KEY",
                   validProvidersLine],
        raised := none, contractBuilt := false, networkCalled := false } :=
  (unknown_provider_aborts (fun _ => { address := "0xCAFE" }) { privateKey := some "0xabc" }
    { address := "0xCAFE" } (Except.ok []) (Except.ok (0, false, false))
    "0xC0" "0x01" "SOME_OTHER_KEY" rfl rfl).1

/-- C3: with PRIVATE_KEY unset or empty, every command aborts with the
configuration error message before building a contract or touching the
network, and prints nothing. -/
theorem missing_private_key_aborts (derive : String → Account) (env : Env)
    (callGS : Except CallError (List Nat)) (callGI : Except CallError (Nat × Bool × Bool))
    (callWho : Except CallError String) (c o p : String)
    (h : env.privateKey = none ∨ env.privateKey = some "") :
    get_secret derive env callGS c o p =
      { output := [], raised := some (Fault.configError "PRIVATE_KEY environment variable required"),
        contractBuilt := false, networkCalled := false } ∧
    get_info derive env callGI c o p =
      { output := [], raised := some (Fault.configError "PRIVATE_KEY environment variable required"),
        contractBuilt := false, networkCalled := false } ∧
    whoami derive env callWho c =
      { output := [], raised := some (Fault.configError "PRIVATE_KEY environment variable required"),
        contractBuilt := false, networkCalled := false } := by
  rcases h with h | h <;>
    refine ⟨?_, ?_, ?_⟩ <;>
      simp [get_secret, get_info, whoami, get_client, h]

/-- Witness for C3 with the PRIVATE_KEY variable unset. -/
theorem missing_private_key_aborts_witness :
    whoami (fun _ => { address := "0xCAFE" }) { privateKey := none } (Except.ok "0xCAFE") "0xC0" =
      { output := [], raised := some (Fault.configError "PRIVATE_KEY environment variable required"),
        contractBuilt := false, networkCalled := false } :=
  (missing_private_key_aborts (fun _ => { address := "0xCAFE" }) { privateKey := none }
    (Except.ok []) (Except.ok (0, false, false)) (Except.ok "0xCAFE") "0xC0" "0x01" "OPENAI_API_KEY"
    (Or.inl rfl)).2.2

/-- C1 counterexample: a concrete get-secret invocation with PRIVATE_KEY
unset terminates with the ConfigError escaping the command dispatcher as an
uncaught fault, and nothing is printed - the error is neither caught at the
dispatch boundary nor rendered as a diagnostic line. -/
theorem configError_escapes_dispatcher :
    (runMain (fun _ => { address := "0xCAFE" }) { privateKey := none }
        (Except.ok []) (Except.ok (0, false, false)) (Except.ok "0xCAFE")
        ["vault_client.py", "get-secret", "0xC0", "0x01", "OPENAI_API_KEY"]).raised =
      some (Fault.configError "PRIVATE_KEY environment variable required") ∧
    (runMain (fun _ => { address := "0xCAFE" }) { privateKey := none }
        (Except.ok []) (Except.ok (0, false, false)) (Except.ok "0xCAFE")
        ["vault_client.py", "get-secret", "0xC0", "0x01", "OPENAI_API_KEY"]).output = [] := by
  exact ⟨rfl, rfl⟩

/-- C1 amended: errors raised inside each command's try block (network, RPC
and contract-revert errors from the call, and the UTF-8 decode error) are
caught there and rendered as a one-line printed diagnostic, with no fault
escaping; but a ConfigError raised while loading the signer is not caught
anywhere and propagates out of the command dispatcher as an unhandled
fault. -/
theorem error_boundary (derive : String → Account) (env envBad : Env) (acct : Account)
    (e : CallError) (bs : List Nat) (c o p : String) (pid : List Nat) (f : Fault)
    (hok : get_client derive env = Except.ok acct)
    (hp : PROVIDERS_get p = some pid) (hne : pid ≠ [])
    (hdec : utf8DecodeScalars bs = none)
    (hbad : get_client derive envBad = Except.error f) :
    (get_secret derive env (Except.error e) c o p).raised = none ∧
    (get_secret derive env (Except.error e) c o p).output.getLast? =
      some ("✗ Error: " ++ e.message) ∧
    (get_info derive env (Except.error e) c o p).raised = none ∧
    (get_info derive env (Except.error e) c o p).output.getLast? =
      some ("✗ Error: " ++ e.message) ∧
    (whoami derive env (Except.error e) c).raised = none ∧
    (whoami derive env (Except.error e) c).output.getLast? =
      some ("✗ Error: " ++ e.message) ∧
    (get_secret derive env (Except.ok bs) c o p).raised = none ∧
    (get_secret derive env (Except.ok bs) c o p).output.getLast? =
      some ("✗ Error: " ++ decodeErrorMessage) ∧
    (runMain derive envBad (Except.ok bs) (Except.ok (0, false, false)) (Except.ok "")
        ["vault_client.py", "get-secret", c, o, p]).raised = some f := by
  have hpe : pid.isEmpty = false := by
    cases pid with
    | nil => exact absurd rfl hne
    | cons a l => rfl
  refine ⟨?_, ?_, ?_, ?_, ?_, ?_, ?_, ?_, ?_⟩ <;>
    simp [get_secret, get_info, whoami, runMain, dispatch, pyUtf8Decode,
      hok, hp, hpe, hdec, hbad]

/-- Witness for the C1 amended theorem at concrete inputs: a known provider,
a contract-revert error, an invalid UTF-8 byte, and an environment with no
PRIVATE_KEY. -/
theorem error_boundary_witness :
    (get_secret (fun _ => { address := "0xCAFE" }) { privateKey := some "0xabc" }
        (Except.error (CallError.contractRevertError "not authorized"))
        "0xC0" "0x01" "OPENAI_API_KEY").raised = none :=
  (error_boundary (fun _ => { address := "0xCAFE" })
    { privateKey := some "0xabc" } { privateKey := none } { address := "0xCAFE" }
    (CallError.contractRevertError "not authorized") [0xFF] "0xC0" "0x01" "OPENAI_API_KEY"
    (keccak256 (pyUtf8Encode "OPENAI_API_KEY"))
    (Fault.configError "PRIVATE_KEY environment variable required")
    rfl rfl (by decide) rfl rfl).1

/-- C6: when the contract call returns the UTF-8 encoding of a string, the
get-secret command prints exactly that string on the secret line - the
stored string is the retrieved string, unaltered. -/
theorem get_secret_utf8_roundtrip (derive : String → Account) (env : Env) (acct : Account)
    (c o p : String) (pid : List Nat) (s : String)
    (hok : get_client derive env = Except.ok acct)
    (hp : PROVIDERS_get p = some pid) (hne : pid ≠ []) :
    get_secret derive env (Except.ok (pyUtf8Encode s)) c o p =
      { output := ["Caller: " ++ acct.address, "Owner: " ++ o, "Provider: " ++ p,
                   "✓ Secret: " ++ s],
        raised := none, contractBuilt := true, networkCalled := true } := by
  have hpe : pid.isEmpty = false := by
    cases pid with
    | nil => exact absurd rfl hne
    | cons a l => rfl
  simp [get_secret, hok, hp, hpe, pyUtf8Decode_pyUtf8Encode]

/-- Witness for C6: the round trip at the secret "hello-key-123". -/
theorem get_secret_utf8_roundtrip_witness :
    get_secret (fun _ => { address := "0xCAFE" }) { privateKey := some "0xabc" }
        (Except.ok (pyUtf8Encode "hello-key-123")) "0xC0" "0x01" "OPENAI_API_KEY" =
      { output := ["Caller: " ++ "0xCAFE", "Owner: " ++ "0x01", "Provider: " ++ "OPENAI_API_KEY",
                   "✓ Secret: " ++ "hello-key-123"],
        raised := none, contractBuilt := true, networkCalled := true } :=
  get_secret_utf8_roundtrip (fun _ => { address := "0xCAFE" }) { privateKey := some "0xabc" }
    { address := "0xCAFE" } "0xC0" "0x01" "OPENAI_API_KEY"
    (keccak256 (pyUtf8Encode "OPENAI_API_KEY")) "hello-key-123" rfl rfl (by decide)

/-- C7: a get-secret whose returned bytes are not valid UTF-8 fails at the
client-side decode step, reported as a printed error line with no fault
escaping; a contract revert (unauthorized or missing record) is reported
the same way. -/
theorem get_secret_decode_and_revert_reported (derive : String → Account) (env : Env)
    (acct : Account) (c o p : String) (pid bs : List Nat) (m : String)
    (hok : get_client derive env = Except.ok acct)
    (hp : PROVIDERS_get p = some pid) (hne : pid ≠ [])
    (hbad : utf8DecodeScalars bs = none) :
    get_secret derive env (Except.ok bs) c o p =
      { output := ["Caller: " ++ acct.address, "Owner: " ++ o, "Provider: " ++ p,
                   "✗ Error: " ++ decodeErrorMessage],
        raised := none, contractBuilt := true, networkCalled := true } ∧
    get_secret derive env (Except.error (CallError.contractRevertError m)) c o p =
      { output := ["Caller: " ++ acct.address, "Owner: " ++ o, "Provider: " ++ p,
                   "✗ Error: " ++ m],
        raised := none, contractBuilt := true, networkCalled := true } := by
  have hpe : pid.isEmpty = false := by
    cases pid with
    | nil => exact absurd rfl hne
    | cons a l => rfl
  constructor <;> simp [get_secret, hok, hp, hpe, pyUtf8Decode, hbad, CallError.message]

/-- Witness for C7: the invalid byte 0xFF and a concrete revert message. -/
theorem get_secret_decode_and_revert_reported_witness :
    get_secret (fun _ => { address := "0xCAFE" }) { privateKey := some "0xabc" }
        (Except.ok [0xFF]) "0xC0" "0x01" "OPENAI_API_KEY" =
      { output := ["Caller: " ++ "0xCAFE", "Owner: " ++ "0x01", "Provider: " ++ "OPENAI_API_KEY",
                   "✗ Error: " ++ decodeErrorMessage],
        raised := none, contractBuilt := true, networkCalled := true } :=
  (get_secret_decode_and_revert_reported (fun _ => { address := "0xCAFE" })
    { privateKey := some "0xabc" } { address := "0xCAFE" } "0xC0" "0x01" "OPENAI_API_KEY"
    (keccak256 (pyUtf8Encode "OPENAI_API_KEY")) [0xFF] "not authorized"
    rfl rfl (by decide) rfl).1

/-- C9: in get-secret and get-info the signer is loaded (and the Caller line
printed) before the provider name is validated: with the key present and an
unknown provider the Caller line heads the output, and with PRIVATE_KEY
unset the configuration error fires and the unknown-provider message is
never printed. -/
theorem signer_loaded_before_provider_validation (derive : String → Account)
    (env envBad : Env) (acct : Account)
    (callGS : Except CallError (List Nat)) (callGI : Except CallError (Nat × Bool × Bool))
    (c o p : String)
    (hok : get_client derive env = Except.ok acct)
    (hp : PROVIDERS_get p = none)
    (hbad : envBad.privateKey = none) :
    (get_secret derive env callGS c o p).output =
      ["Caller: " ++ acct.address, "Owner: " ++ o, "Provider: " ++ p, validProvidersLine] ∧
    (get_info derive env callGI c o p).output =
      ["Caller: " ++ acct.address, validProvidersLine] ∧
    (get_secret derive envBad callGS c o p).raised =
      some (Fault.configError "PRIVATE_KEY environment variable required") ∧
    (get_secret derive envBad callGS c o p).output = [] ∧
    (get_info derive envBad callGI c o p).raised =
      some (Fault.configError "PRIVATE_KEY environment variable required") ∧
    (get_info derive envBad callGI c o p).output = [] := by
  refine ⟨?_, ?_, ?_, ?_, ?_, ?_⟩
  · simp [get_secret, hok, hp]
  · simp [get_info, hok, hp]
  · simp [get_secret, get_client, hbad]
  · simp [get_secret, get_client, hbad]
  · simp [get_info, get_client, hbad]
  · simp [get_info, get_client, hbad]

/-- Witness for C9 at a concrete unknown provider and an unset key. -/
theorem signer_loaded_before_provider_validation_witness :
    (get_secret (fun _ => { address := "0xCAFE" }) { privateKey := none }
        (Except.ok []) "0xC0" "0x01" "SOME_OTHER_KEY").output = [] :=
  (signer_loaded_before_provider_validation (fun _ => { address := "0xCAFE" })
    { privateKey := some "0xabc" } { privateKey := none } { address := "0xCAFE" }
    (Except.ok []) (Except.ok (0, false, false)) "0xC0" "0x01" "SOME_OTHER_KEY"
    rfl rfl rfl).2.2.2.1

/-- C5: against the spec's mock RPC, whoami returns the signer's own address
for a wrapped client and the zero address for an unwrapped client; the
command prints the expected and returned addresses, and the verdict line is
the success verdict exactly when the returned address equals the signer's
address and the unsigned verdict exactly when it is the zero address (the
signer's address, being derived from a private key, is not the zero
address). -/
theorem whoami_dichotomy_and_verdict (derive : String → Account) (env : Env) (acct : Account)
    (c : String) (wrapped : Bool)
    (hok : get_client derive env = Except.ok acct)
    (hnz : acct.address ≠ zeroAddress) :
    whoami derive env (mockWhoAmICall wrapped acct.address) c =
      (if wrapped then
        { output := ["Expected: " ++ acct.address, "Returned: " ++ acct.address,
                     "✓ Signed queries working!"],
          raised := none, contractBuilt := true, networkCalled := true }
      else
        { output := ["Expected: " ++ acct.address, "Returned: " ++ zeroAddress,
                     "✗ Unsigned (msg.sender = address(0))"],
          raised := none, contractBuilt := true, networkCalled := true }) ∧
    (∀ res : String,
      ((whoami derive env (Except.ok res) c).output.getLast? =
          some "✓ Signed queries working!" ↔ res = acct.address) ∧
      ((whoami derive env (Except.ok res) c).output.getLast? =
          some "✗ Unsigned (msg.sender = address(0))" ↔ res = zeroAddress)) := by
  have houtput : ∀ res : String, (whoami derive env (Except.ok res) c).output =
      ["Expected: " ++ acct.address, "Returned: " ++ res] ++
        [if res = acct.address then "✓ Signed queries working!"
         else if res = zeroAddress then "✗ Unsigned (msg.sender = address(0))"
         else "? Unexpected result"] := by
    intro res
    by_cases h1 : res = acct.address
    · simp [whoami, hok, h1]
    · by_cases h2 : res = zeroAddress
      · simp [whoami, hok, h2, Ne.symm hnz]
      · simp [whoami, hok, h1, h2]
  constructor
  · cases wrapped with
    | false => simp [whoami, mockWhoAmICall, hok, Ne.symm hnz]
    | true => simp [whoami, mockWhoAmICall, hok]
  · intro res
    rw [houtput res, List.getLast?_concat]
    constructor
    · by_cases h1 : res = acct.address
      · simp [h1]
      · by_cases h2 : res = zeroAddress <;> simp [h1, h2]
    · by_cases h2 : res = zeroAddress
      · rw [h2]
        simp [Ne.symm hnz]
      · by_cases h1 : res = acct.address <;> simp [h1, h2, hnz]

/-- Witness for C5: concrete wrapped and unwrapped runs against the mock. -/
theorem whoami_dichotomy_and_verdict_witness :
    whoami (fun _ => { address := "0xCAFE" }) { privateKey := some "0xabc" }
        (mockWhoAmICall false "0xCAFE") "0xC0" =
      { output := ["Expected: " ++ "0xCAFE", "Returned: " ++ zeroAddress,
                   "✗ Unsigned (msg.sender = address(0))"],
        raised := none, contractBuilt := true, networkCalled := true } :=
  (whoami_dichotomy_and_verdict (fun _ => { address := "0xCAFE" })
    { privateKey := some "0xabc" } { address := "0xCAFE" } "0xC0" false rfl
    (by decide)).1

/-- C8: the CLI dispatches exactly when the argument vector is
`prog get-secret a b c`, `prog get-info a b c` or `prog whoami a`; every
other vector (no arguments, unknown command, wrong argument count) prints
the usage text and returns with nothing raised and no network activity. -/
theorem main_dispatch_characterization (derive : String → Account) (env : Env)
    (callGS : Except CallError (List Nat)) (callGI : Except CallError (Nat × Bool × Bool))
    (callWho : Except CallError String) (argv : List String) :
    runMain derive env callGS callGI callWho argv =
      (match argv with
       | [_, cmd, a1, a2, a3] =>
         if cmd = "get-secret" then get_secret derive env callGS a1 a2 a3
         else if cmd = "get-info" then get_info derive env callGI a1 a2 a3
         else { output := [usageText], raised := none,
                contractBuilt := false, networkCalled := false }
       | [_, cmd, a1] =>
         if cmd = "whoami" then whoami derive env callWho a1
         else { output := [usageText], raised := none,
                contractBuilt := false, networkCalled := false }
       | _ => { output := [usageText], raised := none,
                contractBuilt := false, networkCalled := false }) ∧
    (dispatch argv ≠ Dispatch.usage ↔
      (∃ pr a b c, argv = [pr, "get-secret", a, b, c]) ∨
      (∃ pr a b c, argv = [pr, "get-info", a, b, c]) ∨
      (∃ pr a, argv = [pr, "whoami", a])) := by
  rcases argv with _ | ⟨p, _ | ⟨c, _ | ⟨a, _ | ⟨b, _ | ⟨d, _ | ⟨e, rest⟩⟩⟩⟩⟩⟩
  · exact ⟨by simp [runMain, dispatch], by simp [dispatch]⟩
  · exact ⟨by simp [runMain, dispatch], by simp [dispatch]⟩
  · constructor
    · by_cases h1 : c = "get-secret" <;> by_cases h2 : c = "get-info" <;>
        by_cases h3 : c = "whoami" <;> simp [runMain, dispatch, h1, h2, h3]
    · by_cases h1 : c = "get-secret" <;> by_cases h2 : c = "get-info" <;>
        by_cases h3 : c = "whoami" <;> simp [dispatch, h1, h2, h3]
  · constructor
    · by_cases h3 : c = "whoami" <;> simp [runMain, dispatch, h3]
    · by_cases h3 : c = "whoami" <;> simp [dispatch, h3]
  · constructor
    · by_cases h1 : c = "get-secret" <;> by_cases h2 : c = "get-info" <;>
        by_cases h3 : c = "whoami" <;> simp [runMain, dispatch, h1, h2, h3]
    · by_cases h1 : c = "get-secret" <;> by_cases h2 : c = "get-info" <;>
        by_cases h3 : c = "whoami" <;> simp [dispatch, h1, h2, h3]
  · constructor
    · by_cases h1 : c = "get-secret" <;> by_cases h2 : c = "get-info" <;>
        simp [runMain, dispatch, h1, h2]
    · by_cases h1 : c = "get-secret" <;> by_cases h2 : c = "get-info" <;>
        simp [dispatch, h1, h2]
  · have h5 : ((p :: c :: a :: b :: d :: e :: rest) : List String).length ≠ 5 := by
      simp only [List.length_cons]
      omega
    have h3 : ((p :: c :: a :: b :: d :: e :: rest) : List String).length ≠ 3 := by
      simp only [List.length_cons]
      omega
    constructor
    · simp [runMain, dispatch, h5, h3]
    · simp [dispatch, h5, h3]

end VaultClient
